import Mathlib

/-!
Verification of `custom_scripts/export_assets_to_akeneo.py`.

The script is a sequential ETL pass: it loads a CSV of product image rows,
derives a slug-like asset code from each image filename, ensures the asset
exists in the PIM (search, then download + upload + upsert when absent), and
finally patches the product's image attributes, accumulating run statistics.

The shallow embedding below translates the script's pure logic directly.
All HTTP interactions are abstracted as an explicit environment `Env` of
response oracles; the wall-clock time `int(time.time())` used by the
filename sanitizer is an explicit parameter `t`.  Characters are modelled
with ASCII case mapping (`Char.toLower`), matching Python's `str.lower`
on the ASCII range that the sanitizer's character class works with.
-/

namespace AkeneoExport

/-! ## Definitions: shallow embedding of the script -/

/-- Python `os.path.basename` for POSIX paths: the part after the last `'/'`. -/
def basenameChars (l : List Char) : List Char :=
  (l.reverse.takeWhile (fun c => c ≠ '/')).reverse

/-- Stem part of Python `os.path.splitext` on a slash-free name: split at the
last `'.'` provided some non-dot character precedes it (so names consisting of
leading dots only, such as `.bashrc`, are kept whole). -/
def splitextBase (l : List Char) : List Char :=
  let suffix := l.reverse.takeWhile (fun c => c ≠ '.')
  if suffix.length = l.length then l
  else
    let stem := l.take (l.length - suffix.length - 1)
    if stem.any (fun c => c ≠ '.') then stem else l

/-- The character class `[a-zA-Z0-9]` of the sanitiser's regex. -/
def isAsciiAlnum (c : Char) : Bool :=
  ('a' ≤ c && c ≤ 'z') || ('A' ≤ c && c ≤ 'Z') || ('0' ≤ c && c ≤ '9')

/-- Worker for `squashNonAlnum`; the flag records whether we are inside a run
of non-alphanumeric characters that has already emitted its underscore. -/
def squashAux : Bool → List Char → List Char
  | _, [] => []
  | inRun, c :: rest =>
    if isAsciiAlnum c then c :: squashAux false rest
    else if inRun then squashAux true rest
    else '_' :: squashAux true rest

/-- Python `re.sub(r'[^a-zA-Z0-9]+', '_', s)`: every maximal run of
non-alphanumeric characters becomes a single underscore. -/
def squashNonAlnum (l : List Char) : List Char :=
  squashAux false l

/-- Python `str.strip('_')`: drop leading and trailing underscores. -/
def trimUnderscores (l : List Char) : List Char :=
  ((l.dropWhile (fun c => c = '_')).reverse.dropWhile (fun c => c = '_')).reverse

/-- Embedding of `sanitize_asset_code` from the source, with `int(time.time())` made the
explicit parameter `t`:

    base = os.path.splitext(os.path.basename(filename))[0]
    code = re.sub(r'[^a-zA-Z0-9]+', '_', base.lower()).strip('_')
    if not code:
        code = f"asset_{int(time.time())}"
    return code[:255]
-/
def sanitize_asset_code (t : Nat) (filename : String) : String :=
  let base := splitextBase (basenameChars filename.toList)
  let code := trimUnderscores (squashNonAlnum (base.map Char.toLower))
  let code2 := if code = [] then ("asset_" ++ toString t).toList else code
  (code2.take 255).asString

/-- Reference definition of the asset code taken from the words of the spec
and claim C5: lower-case the base name, strip the extension, replace every
run of non-alphanumeric characters with a single underscore, trim
leading/trailing underscores, truncate to 255 characters, and substitute a
current-time-based fallback code if the result is empty. -/
def sanitize_asset_code_ref (t : Nat) (filename : String) : String :=
  let lowered := (basenameChars filename.toList).map Char.toLower
  let code := (trimUnderscores (squashNonAlnum (splitextBase lowered))).take 255
  if code = [] then "asset_" ++ toString t else code.asString

/-- One image descriptor as the script handles it (`dict` with `url`,
`seo_filename` and `position` keys; `position` may be absent, which the
script reads with `.get("position", ...)`). -/
structure Image where
  url : String
  seo_filename : String
  position : Option Int
deriving DecidableEq

/-- One grouped product entry (`sku`, `name`, image list). -/
structure ProductEntry where
  sku : String
  name : String
  images : List Image
deriving DecidableEq

/-- The mutable `stats` dictionary created in `main`: `total` plus the four
outcome buckets.  Entries of `other` are `(sku, reason)` pairs whose `sku`
may be Python `None`. -/
structure Stats where
  total : Nat
  updated : List String
  not_found : List String
  ambiguous : List String
  other : List (Option String × String)
deriving DecidableEq

/-- Observable side effects of a run: which HTTP operations were invoked,
with the request data that determines their payloads. -/
inductive Step where
  | productSearch (sku : String)
  | assetSearch (family code : String)
  | download (url : String) (timeout : Nat) (attempt : Nat)
  | upload (filename : String)
  | upsertAsset (family code : String)
  | updateProduct (sku : String) (mainCode : Option String) (otherCodes : List String)
deriving DecidableEq

/-- Response to a search request (`GET` with a `search` filter): HTTP status,
response text, and the `_embedded.items` list (items identified abstractly). -/
structure SearchResp where
  status : Nat
  text : String
  items : List String
deriving DecidableEq

/-- One attempt of `requests.get` on an image URL: either a response
(status plus joined body chunks) or a raised exception with its message. -/
inductive DlAttempt where
  | resp (status : Nat) (chunks : List Nat)
  | exn (msg : String)
deriving DecidableEq

/-- Response to the multipart media upload: status, text and the
`asset-media-file-code` response header (if present). -/
structure UploadResp where
  status : Nat
  text : String
  mediaCode : Option String
deriving DecidableEq

/-- A plain HTTP response (status and text). -/
structure HttpResp where
  status : Nat
  text : String
deriving DecidableEq

/-- Environment of response oracles standing for the network: each field
answers one kind of request deterministically from its request data
(downloads additionally from the attempt index, so retries can observe
different outcomes). -/
structure Env where
  product_search : String → SearchResp
  asset_search : String → String → SearchResp
  dl : String → Nat → Nat → DlAttempt
  upload : String → List Nat → UploadResp
  upsert : String → String → String → String → HttpResp
  update : String → Option String → List String → HttpResp

/-- Constant `ASSET_FAMILY_CODE` from the source. -/
def ASSET_FAMILY_CODE : String := "product_images"

/-- Embedding of `find_product_by_sku`: product search by exact identifier; non-200 turns
into an error string, otherwise the embedded items are returned. -/
def find_product_by_sku (env : Env) (sku : String) : List String × Option String :=
  let r := env.product_search sku
  if r.status ≠ 200 then
    ([], some ("Product search failed (" ++ toString r.status ++ "): " ++ r.text))
  else (r.items, none)

/-- Embedding of `find_asset_by_code`: asset search by exact code; non-200 turns into an
error string, otherwise the first embedded item (if any) is returned. -/
def find_asset_by_code (env : Env) (family_code asset_code : String) :
    Option String × Option String :=
  let r := env.asset_search family_code asset_code
  if r.status ≠ 200 then
    (none, some ("Asset search failed (" ++ toString r.status ++ "): " ++ r.text))
  else (r.items.head?, none)

/-- Python `last_err or "Unknown download error"`. -/
def orUnknown : Option String → String
  | none => "Unknown download error"
  | some m => if m = "" then "Unknown download error" else m

/-- The retry loop of `download_image`: `n` attempts remain, `i` is the index
of the next attempt, `last_err` the error of the previous failed attempt. -/
def download_go (env : Env) (url : String) (timeout : Nat) :
    Nat → Nat → Option String → (Option (List Nat) × Option String) × List Step
  | 0, _, last_err => ((none, some (orUnknown last_err)), [])
  | n + 1, i, _ =>
    match env.dl url timeout i with
    | .exn m =>
      let r := download_go env url timeout n (i + 1) (some m)
      (r.1, Step.download url timeout i :: r.2)
    | .resp st bs =>
      if st ≠ 200 then
        let r := download_go env url timeout n (i + 1)
          (some ("HTTP " ++ toString st ++ " downloading image"))
        (r.1, Step.download url timeout i :: r.2)
      else ((some bs, none), [Step.download url timeout i])

/-- Embedding of `download_image(url, timeout=20, retries=2)`: `retries + 1` attempts,
returning the bytes of the first 200 response or the last error. -/
def download_image (env : Env) (url : String) (timeout : Nat := 20) (retries : Nat := 2) :
    (Option (List Nat) × Option String) × List Step :=
  download_go env url timeout (retries + 1) 0 none

/-- Embedding of `upload_asset_media`: multipart upload; success needs status 201/202 and a
non-empty `asset-media-file-code` response header, each failure mode with its
own error string. -/
def upload_asset_media (env : Env) (file_bytes : List Nat) (filename : String) :
    (Option String × Option String) × List Step :=
  let r := env.upload filename file_bytes
  let steps := [Step.upload filename]
  if ¬ (r.status = 201 ∨ r.status = 202) then
    ((none, some ("Media upload failed (" ++ toString r.status ++ "): " ++ r.text)), steps)
  else
    match r.mediaCode with
    | none => ((none, some "Missing asset-media-file-code in response headers"), steps)
    | some mc =>
      if mc = "" then ((none, some "Missing asset-media-file-code in response headers"), steps)
      else ((some mc, none), steps)

/-- Embedding of `upsert_asset`: PATCH of the asset; statuses 201/204 succeed. -/
def upsert_asset (env : Env) (family_code asset_code label media_file_code : String) :
    Option String × List Step :=
  let r := env.upsert family_code asset_code label media_file_code
  let steps := [Step.upsertAsset family_code asset_code]
  if ¬ (r.status = 201 ∨ r.status = 204) then
    (some ("Asset upsert failed (" ++ toString r.status ++ "): " ++ r.text), steps)
  else (none, steps)

/-- Python truthiness of an optional string (`if main_code:`): `None` and the
empty string are falsy. -/
def truthyOpt : Option String → Option String
  | some c => if c = "" then none else some c
  | none => none

/-- Embedding of `update_product_assets`: PATCH of the product values; the main attribute
is included only when `main_code` is truthy (`if main_code:`); statuses
201/204 succeed. -/
def update_product_assets (env : Env) (sku : String) (main_code : Option String)
    (other_codes : List String) : Option String × List Step :=
  let mainVal : Option String := truthyOpt main_code
  let r := env.update sku mainVal other_codes
  let steps := [Step.updateProduct sku mainVal other_codes]
  if ¬ (r.status = 201 ∨ r.status = 204) then
    (some ("Product update failed (" ++ toString r.status ++ "): " ++ r.text), steps)
  else (none, steps)

/-- The per-image body of the resolution loop in `process_product`: returns
the asset code appended to `asset_codes_in_order` (if any), the `(reason)`
string appended to `stats["other"]` (if any), and the steps performed. -/
def resolve_image (env : Env) (t : Nat) (img : Image) :
    Option String × Option String × List Step :=
  let filename := img.seo_filename
  let asset_code := sanitize_asset_code t filename
  let fr := find_asset_by_code env ASSET_FAMILY_CODE asset_code
  let searchSteps := [Step.assetSearch ASSET_FAMILY_CODE asset_code]
  match fr.1 with
  | some _ => (some asset_code, none, searchSteps)
  | none =>
    match fr.2 with
    | some e => (none, some e, searchSteps)
    | none =>
      let dlr := download_image env img.url
      match dlr.1.2 with
      | some e => (none, some ("download error: " ++ e), searchSteps ++ dlr.2)
      | none =>
        let file_bytes := dlr.1.1.getD []
        let upr := upload_asset_media env file_bytes filename
        match upr.1.2 with
        | some e => (none, some ("media upload error: " ++ e), searchSteps ++ dlr.2 ++ upr.2)
        | none =>
          let media_file_code := upr.1.1.getD ""
          let upsr := upsert_asset env ASSET_FAMILY_CODE asset_code filename media_file_code
          match upsr.1 with
          | some e =>
            (none, some ("asset upsert error: " ++ e), searchSteps ++ dlr.2 ++ upr.2 ++ upsr.2)
          | none => (some asset_code, none, searchSteps ++ dlr.2 ++ upr.2 ++ upsr.2)

/-- The resolution loop over the valid images: collects the ordered asset
codes, the error records for `stats["other"]` (tagged with the SKU) and the
performed steps. -/
def resolve_images (env : Env) (t : Nat) (sku : String) :
    List Image → List String × List (Option String × String) × List Step
  | [] => ([], [], [])
  | img :: rest =>
    let r := resolve_image env t img
    let rs := resolve_images env t sku rest
    (r.1.toList ++ rs.1,
     (r.2.1.map fun e => ((some sku : Option String), e)).toList ++ rs.2.1,
     r.2.2 ++ rs.2.2)

/-- Sort key `x.get("position", 9999)`. -/
def posKey (img : Image) : Int :=
  img.position.getD 9999

/-- Stable insertion of an image in front of the first strictly greater key. -/
def insertImage (a : Image) : List Image → List Image
  | [] => [a]
  | b :: bs => if posKey b < posKey a then b :: insertImage a bs else a :: b :: bs

/-- Python `list.sort(key=lambda x: x.get("position", 9999))`: a stable
ascending sort; any stable ascending sort computes the same list, so a
structural insertion sort models it exactly. -/
def sortImages : List Image → List Image
  | [] => []
  | x :: xs => insertImage x (sortImages xs)

/-- The image-validity test of `process_product`: an image is skipped (with an
`Invalid image entry` record) when its `url` or `seo_filename` is empty.
The `position` field is not inspected here. -/
def invalidImage (i : Image) : Bool :=
  i.url == "" || i.seo_filename == ""

/-- Embedding of `process_product`: one product record, start to finish, threading the
stats dictionary and collecting the performed steps. -/
def process_product (env : Env) (t : Nat) (entry : ProductEntry) (stats : Stats) :
    Stats × List Step :=
  let sku := entry.sku
  let images := entry.images
  if sku = "" then
    ({ stats with other := stats.other ++ [(none, "Missing sku")] }, [])
  else
    let pr := find_product_by_sku env sku
    let steps0 := [Step.productSearch sku]
    match pr.2 with
    | some e => ({ stats with other := stats.other ++ [(some sku, e)] }, steps0)
    | none =>
      if pr.1.length = 0 then
        ({ stats with not_found := stats.not_found ++ [sku] }, steps0)
      else if pr.1.length > 1 then
        ({ stats with ambiguous := stats.ambiguous ++ [sku] }, steps0)
      else
        let invalidRecs := (images.filter invalidImage).map
          fun _ => ((some sku : Option String), "Invalid image entry")
        let valid_images := sortImages (images.filter fun i => ¬ invalidImage i)
        let stats1 := { stats with other := stats.other ++ invalidRecs }
        if valid_images = [] then
          ({ stats1 with updated := stats1.updated ++ [sku] }, steps0)
        else
          let rr := resolve_images env t sku valid_images
          let stats2 := { stats1 with other := stats1.other ++ rr.2.1 }
          if rr.1 = [] then
            ({ stats2 with other := stats2.other ++ [(some sku, "no assets to link")] },
             steps0 ++ rr.2.2)
          else
            let mo : Option String × List String :=
              if valid_images.head?.bind Image.position = some 1 then (rr.1.head?, rr.1.tail)
              else (none, rr.1)
            let ur := update_product_assets env sku mo.1 mo.2
            match ur.1 with
            | some e =>
              ({ stats2 with
                  other := stats2.other ++ [(some sku, "product update error: " ++ e)] },
               steps0 ++ rr.2.2 ++ ur.2)
            | none =>
              ({ stats2 with updated := stats2.updated ++ [sku] }, steps0 ++ rr.2.2 ++ ur.2)

/-- One CSV data row (all columns as read, position still a string). -/
structure Row where
  sku : String
  product_title : String
  image_url : String
  image_seo_filename : String
  image_position : String
deriving DecidableEq

/-- Grouping by SKU in first-seen order (Python dict insertion order): the
entry's name is the first row's title, images are appended per row. -/
def upsertEntry : List ProductEntry → String → String → Option Image → List ProductEntry
  | [], sku, name, img? => [⟨sku, name, img?.toList⟩]
  | e :: rest, sku, name, img? =>
    if e.sku = sku then { e with images := e.images ++ img?.toList } :: rest
    else e :: upsertEntry rest sku name img?

/-- Row loop of `load_input_csv`; a row's image is kept only when `url`,
`seo_filename` and `position` are all non-empty (truthy); `int(...)` failure
on a kept row makes the whole load fail (`none`, Python exception, exit 2).
At the end every product's image list is sorted by position. -/
def load_rows : List Row → List ProductEntry → Option (List ProductEntry)
  | [], acc => some (acc.map fun p => { p with images := sortImages p.images })
  | r :: rs, acc =>
    if r.image_url ≠ "" ∧ r.image_seo_filename ≠ "" ∧ r.image_position ≠ "" then
      match r.image_position.toInt? with
      | none => none
      | some pos =>
        load_rows rs (upsertEntry acc r.sku r.product_title
          (some ⟨r.image_url, r.image_seo_filename, some pos⟩))
    else load_rows rs (upsertEntry acc r.sku r.product_title none)

/-- Embedding of `load_input_csv` over already-split CSV rows. -/
def load_input_csv (rows : List Row) : Option (List ProductEntry) :=
  load_rows rows []

/-- The lines printed by `print_summary`: the headline (which merges the
not-found and ambiguous bucket sizes into one count) followed by the three
itemised sections. -/
def print_summary (stats : Stats) : List String :=
  let updatedCount := stats.updated.length
  let notFoundCount := stats.not_found.length + stats.ambiguous.length
  let otherCount := stats.other.length
  let headline := "total products processed: " ++ toString stats.total ++
    "; Successfully added assets to " ++ toString updatedCount ++
    " products; Products Not found: " ++ toString notFoundCount ++
    "; Other Issues: " ++ toString otherCount
  let nfLines := if stats.not_found ≠ [] then
      "Not found SKUs:" :: stats.not_found.map (fun sku => " - " ++ sku)
    else []
  let ambLines := if stats.ambiguous ≠ [] then
      "Ambiguous SKUs:" :: stats.ambiguous.map (fun sku => " - " ++ sku)
    else []
  let otherLines := if stats.other ≠ [] then
      "Other issues:" :: stats.other.map (fun r => " - " ++ r.1.getD "None" ++ ": " ++ r.2)
    else []
  headline :: (nfLines ++ ambLines ++ otherLines)

/-- Recognises the product PATCH step. -/
def isUpdateStep : Step → Bool
  | .updateProduct _ _ _ => true
  | _ => false

/-- Empty statistics, as `main` creates them (total set to 0 here). -/
def stats0 : Stats := ⟨0, [], [], [], []⟩

/-- A fully successful environment: product searches find exactly one item,
asset searches find nothing, downloads succeed at once, upload and upsert and
product update succeed. -/
def envBase : Env where
  product_search := fun _ => ⟨200, "", ["p"]⟩
  asset_search := fun _ _ => ⟨200, "", []⟩
  dl := fun _ _ _ => .resp 200 [1, 2]
  upload := fun _ _ => ⟨201, "", some "mc1"⟩
  upsert := fun _ _ _ _ => ⟨201, ""⟩
  update := fun _ _ _ => ⟨204, ""⟩

/-- A download attempt that the retry loop treats as a failure: a raised
exception or a non-200 status. -/
def attemptFails : DlAttempt → Bool
  | .exn _ => true
  | .resp st _ => st ≠ 200

/-- Product-search oracle for the C1 counterexample: asset `b` exists, asset
`a` does not, and every download fails with HTTP 500. -/
def envC1 : Env :=
  { envBase with
    asset_search := fun _ code => if code = "b" then ⟨200, "", ["x"]⟩ else ⟨200, "", []⟩
    dl := fun _ _ _ => .resp 500 [] }

/-- C1 counterexample input: the position-1 image `a.jpg` (whose resolution
will fail at download) and the position-2 image `b.jpg` (already existing). -/
def entryC1 : ProductEntry := ⟨"S", "N", [⟨"u1", "a.jpg", some 1⟩, ⟨"u2", "b.jpg", some 2⟩]⟩

/-! ## Lemmas and claim theorems -/

lemma toLower_eq_dot (c : Char) : c.toLower = '.' ↔ c = '.' := by
  constructor
  · intro h
    simp only [Char.toLower] at h
    by_cases hn : c.toNat ≥ 65 ∧ c.toNat ≤ 90
    · rw [if_pos hn] at h
      exfalso
      have hv : (c.toNat + 32).isValidChar := by
        left
        have : c.toNat ≤ 90 := hn.2
        omega
      rw [Char.ofNat, dif_pos hv] at h
      have h2 : (Char.ofNatAux (c.toNat + 32) hv).toNat = ('.' : Char).toNat := by rw [h]
      have h3 : (Char.ofNatAux (c.toNat + 32) hv).toNat = c.toNat + 32 := rfl
      have h4 : ('.' : Char).toNat = 46 := rfl
      omega
    · rwa [if_neg hn] at h
  · intro h
    subst h
    decide

lemma decide_ne_dot_comp_toLower :
    (fun c => decide (c ≠ '.')) ∘ Char.toLower = fun c : Char => decide (c ≠ '.') := by
  funext c
  simp [Function.comp, toLower_eq_dot]

lemma splitextBase_map_toLower (l : List Char) :
    splitextBase (l.map Char.toLower) = (splitextBase l).map Char.toLower := by
  unfold splitextBase
  simp only [← List.map_reverse, List.takeWhile_map, decide_ne_dot_comp_toLower,
    List.length_map, ← List.map_take, List.any_map, decide_ne_dot_comp_toLower,
    apply_ite (List.map Char.toLower)]

lemma asString_ne_empty {l : List Char} (h : l ≠ []) : l.asString ≠ "" := by
  intro he
  rw [List.asString_eq] at he
  simp at he
  exact h he

lemma fallback_toList_ne_nil (t : Nat) : ("asset_" ++ toString t).toList ≠ [] := by
  have : ("asset_" ++ toString t).toList = "asset_".toList ++ (toString t).toList :=
    String.data_append _ _
  rw [this]
  simp

/-- The sanitiser never returns the empty string: a nonempty trimmed code is
truncated (to at least one character), and the time-based fallback starts with
`asset_`. -/
lemma sanitize_asset_code_ne_empty (t : Nat) (filename : String) :
    sanitize_asset_code t filename ≠ "" := by
  unfold sanitize_asset_code
  apply asString_ne_empty
  rw [Ne, List.take_eq_nil_iff]
  push_neg
  refine ⟨by omega, ?_⟩
  split
  · exact fallback_toList_ne_nil t
  · next h => exact h

/-- C5: the source sanitiser agrees with the claim's reference definition
(whenever the time-based fallback itself fits in 255 characters, as any
real Unix timestamp does), and the example filename `Nice-Image!.jpg`
yields the code `nice_image`. -/
theorem c5_sanitize_matches_ref (t : Nat) (filename : String)
    (ht : ("asset_" ++ toString t).toList.length ≤ 255) :
    sanitize_asset_code t filename = sanitize_asset_code_ref t filename ∧
    sanitize_asset_code t "Nice-Image!.jpg" = "nice_image" := by
  constructor
  · simp only [sanitize_asset_code, sanitize_asset_code_ref]
    rw [splitextBase_map_toLower]
    by_cases h :
        trimUnderscores (squashNonAlnum
          ((splitextBase (basenameChars filename.toList)).map Char.toLower)) = []
    · rw [if_pos h, h]
      rw [List.take_of_length_le ht, String.asString_toList]
      simp
    · rw [if_neg h]
      have hne : (trimUnderscores (squashNonAlnum
          ((splitextBase (basenameChars filename.toList)).map Char.toLower))).take 255 ≠ [] := by
        rw [Ne, List.take_eq_nil_iff]
        push_neg
        exact ⟨by omega, h⟩
      rw [if_neg hne]
  · rfl

/-- Witness for C5 at a concrete time and filename. -/
theorem c5_witness :
    ("asset_" ++ toString 1700000000).toList.length ≤ 255 ∧
    sanitize_asset_code 1700000000 "Nice-Image!.jpg" = "nice_image" :=
  ⟨by decide, (c5_sanitize_matches_ref 1700000000 "Nice-Image!.jpg" (by decide)).2⟩

/-- C3 counterexample: for a filename whose sanitised core is empty, the
derived code embeds the current time, so deriving at two different times
(two different runs) yields two different codes — the code as written is not
idempotent across runs for such filenames. -/
theorem c3_counterexample :
    sanitize_asset_code 1 "!!!.jpg" = "asset_1" ∧
    sanitize_asset_code 2 "!!!.jpg" = "asset_2" ∧
    sanitize_asset_code 1 "!!!.jpg" ≠ sanitize_asset_code 2 "!!!.jpg" := by
  refine ⟨rfl, rfl, ?_⟩
  decide

/-- C3 amended: asset-code derivation is deterministic and idempotent for
every filename whose sanitised core is nonempty — only then is the result
independent of the current time, so re-running on an unchanged filename
resolves to the same code. -/
theorem c3_deterministic_on_nonempty_core (t₁ t₂ : Nat) (filename : String)
    (h : trimUnderscores (squashNonAlnum
      ((splitextBase (basenameChars filename.toList)).map Char.toLower)) ≠ []) :
    sanitize_asset_code t₁ filename = sanitize_asset_code t₂ filename := by
  simp only [sanitize_asset_code]
  rw [if_neg h, if_neg h]

/-- Witness for the amended C3 at a concrete filename and two times. -/
theorem c3_witness :
    trimUnderscores (squashNonAlnum
      ((splitextBase (basenameChars ("a.jpg" : String).toList)).map Char.toLower)) ≠ [] ∧
    sanitize_asset_code 1 "a.jpg" = sanitize_asset_code 2 "a.jpg" :=
  ⟨by decide, c3_deterministic_on_nonempty_core 1 2 "a.jpg" (by decide)⟩

/-- The codes collected by the resolution loop are exactly the per-image
results, in image order. -/
lemma resolve_images_fst (env : Env) (t : Nat) (sku : String) :
    ∀ imgs : List Image, (resolve_images env t sku imgs).1 =
      imgs.filterMap fun i => (resolve_image env t i).1 := by
  intro imgs
  induction imgs with
  | nil => rfl
  | cons img rest ih =>
    simp only [resolve_images, List.filterMap_cons, ih]
    cases (resolve_image env t img).1 <;> simp

/-- Every code produced for an image is the sanitised form of its filename. -/
lemma resolve_image_fst_eq_sanitize (env : Env) (t : Nat) (img : Image) (c : String)
    (h : (resolve_image env t img).1 = some c) :
    c = sanitize_asset_code t img.seo_filename := by
  have hmain : (resolve_image env t img).1 = none ∨
      (resolve_image env t img).1 = some (sanitize_asset_code t img.seo_filename) := by
    simp only [resolve_image]
    repeat' split
    all_goals dsimp only
    all_goals simp
  rcases hmain with hm | hm <;> rw [hm] at h
  · cases h
  · injection h with h
    exact h.symm

/-- The download loop performs only download steps. -/
lemma download_go_steps_not_update (env : Env) (url : String) (timeout : Nat) :
    ∀ n i le st, st ∈ (download_go env url timeout n i le).2 → isUpdateStep st = false := by
  intro n
  induction n with
  | zero => intro i le st h; simp [download_go] at h
  | succ n ih =>
    intro i le st h
    simp only [download_go] at h
    cases hdl : env.dl url timeout i with
    | exn msg =>
      rw [hdl] at h
      dsimp only at h
      simp only [List.mem_cons] at h
      rcases h with h | h
      · subst h; rfl
      · exact ih (i + 1) (some msg) st h
    | resp stc bs =>
      rw [hdl] at h
      dsimp only at h
      by_cases hst : stc = 200
      · rw [if_neg (by simp [hst])] at h
        simp only [List.mem_singleton] at h
        subst h; rfl
      · rw [if_pos hst] at h
        simp only [List.mem_cons] at h
        rcases h with h | h
        · subst h; rfl
        · exact ih (i + 1) _ st h

/-- The upload helper always reports exactly the upload step. -/
lemma upload_asset_media_snd (env : Env) (bs : List Nat) (fn : String) :
    (upload_asset_media env bs fn).2 = [Step.upload fn] := by
  simp only [upload_asset_media]
  split
  · rfl
  · split
    · rfl
    · split <;> rfl

/-- The upsert helper always reports exactly the upsert step. -/
lemma upsert_asset_snd (env : Env) (f c l m : String) :
    (upsert_asset env f c l m).2 = [Step.upsertAsset f c] := by
  simp only [upsert_asset]
  split <;> rfl

/-- The product-update helper always reports exactly the PATCH step, with the
truthiness-filtered main code. -/
lemma update_product_assets_snd (env : Env) (sku : String) (mc : Option String)
    (oc : List String) :
    (update_product_assets env sku mc oc).2 = [Step.updateProduct sku (truthyOpt mc) oc] := by
  simp only [update_product_assets]
  split <;> rfl

lemma not_update_append {l₁ l₂ : List Step}
    (h₁ : ∀ st ∈ l₁, isUpdateStep st = false) (h₂ : ∀ st ∈ l₂, isUpdateStep st = false) :
    ∀ st ∈ l₁ ++ l₂, isUpdateStep st = false := by
  intro st h
  rcases List.mem_append.mp h with h | h
  · exact h₁ st h
  · exact h₂ st h

/-- Resolving one image performs no product PATCH step. -/
lemma resolve_image_steps_not_update (env : Env) (t : Nat) (img : Image) :
    ∀ st ∈ (resolve_image env t img).2.2, isUpdateStep st = false := by
  simp only [resolve_image, download_image]
  repeat' split
  all_goals dsimp only
  all_goals try simp only [upload_asset_media_snd, upsert_asset_snd]
  all_goals
    repeat' first
      | apply not_update_append
      | exact download_go_steps_not_update env img.url 20 3 0 none
      | (intro st h; simp only [List.mem_singleton] at h; subst h; rfl)

/-- Resolving one image never issues the product PATCH. -/
lemma resolve_image_no_update (env : Env) (t : Nat) (img : Image) (s : String)
    (m : Option String) (o : List String) :
    Step.updateProduct s m o ∉ (resolve_image env t img).2.2 := by
  intro h
  have := resolve_image_steps_not_update env t img _ h
  simp [isUpdateStep] at this

/-- Resolving the image list never issues the product PATCH. -/
lemma resolve_images_no_update (env : Env) (t : Nat) (sku : String) (s : String)
    (m : Option String) (o : List String) :
    ∀ imgs : List Image, Step.updateProduct s m o ∉ (resolve_images env t sku imgs).2.2 := by
  intro imgs
  induction imgs with
  | nil => simp [resolve_images]
  | cons img rest ih =>
    simp only [resolve_images, List.mem_append]
    push_neg
    exact ⟨resolve_image_no_update env t img s m o, ih⟩

lemma mem_insertImage {a b : Image} : ∀ {l : List Image}, b ∈ insertImage a l ↔ b = a ∨ b ∈ l := by
  intro l
  induction l with
  | nil => simp [insertImage]
  | cons c cs ih =>
    simp only [insertImage]
    split
    · simp [ih]
      tauto
    · simp

/-- Sorting does not change membership. -/
lemma mem_sortImages {a : Image} : ∀ {l : List Image}, a ∈ sortImages l ↔ a ∈ l := by
  intro l
  induction l with
  | nil => simp [sortImages]
  | cons b bs ih => simp [sortImages, mem_insertImage, ih]

/-- C10: the headline printed by `print_summary` reports the "Products Not
found" count as the size of the `not_found` bucket plus the size of the
`ambiguous` bucket (the two buckets are merged into the one printed number),
for every possible statistics value. -/
theorem c10_summary_merges_not_found_and_ambiguous (stats : Stats) :
    (print_summary stats).head? = some
      ("total products processed: " ++ toString stats.total ++
       "; Successfully added assets to " ++ toString stats.updated.length ++
       " products; Products Not found: " ++
       toString (stats.not_found.length + stats.ambiguous.length) ++
       "; Other Issues: " ++ toString stats.other.length) := rfl

/-- C4: when the asset search finds the derived code (status 200 with a
non-empty item list), that code is reused and returned for appending, no
error is recorded, and the only step performed is the search — no download,
upload or upsert happens for this image. -/
theorem c4_existing_asset_reused (env : Env) (t : Nat) (img : Image)
    (hstatus : (env.asset_search ASSET_FAMILY_CODE
      (sanitize_asset_code t img.seo_filename)).status = 200)
    (hitems : (env.asset_search ASSET_FAMILY_CODE
      (sanitize_asset_code t img.seo_filename)).items ≠ []) :
    resolve_image env t img =
      (some (sanitize_asset_code t img.seo_filename), none,
       [Step.assetSearch ASSET_FAMILY_CODE (sanitize_asset_code t img.seo_filename)]) := by
  obtain ⟨x, xs, hx⟩ := List.exists_cons_of_ne_nil hitems
  simp only [resolve_image, find_asset_by_code, hstatus, hx]
  simp

/-- Witness for C4: a concrete environment whose asset search finds the code. -/
theorem c4_witness :
    (envBase.asset_search ASSET_FAMILY_CODE (sanitize_asset_code 0 "g.jpg")).status = 200 ∧
    resolve_image { envBase with asset_search := fun _ _ => ⟨200, "", ["x"]⟩ } 0
        ⟨"u", "g.jpg", some 2⟩ =
      (some "g", none, [Step.assetSearch ASSET_FAMILY_CODE "g"]) := by
  constructor
  · rfl
  · have h := c4_existing_asset_reused
      { envBase with asset_search := fun _ _ => ⟨200, "", ["x"]⟩ } 0
      ⟨"u", "g.jpg", some 2⟩ (by decide) (by decide)
    rwa [show sanitize_asset_code 0 ("g.jpg" : String) = "g" from rfl] at h

/-- If every attempt fails, the download loop returns no bytes and the last
error, after performing every attempt. -/
lemma download_go_all_fail (env : Env) (url : String) (timeout : Nat) :
    ∀ n i le, (∀ j, j < n → attemptFails (env.dl url timeout (i + j)) = true) →
    ∃ e, download_go env url timeout n i le =
      ((none, some e), (List.range n).map fun j => Step.download url timeout (i + j)) := by
  intro n
  induction n with
  | zero => intro i le _h; exact ⟨orUnknown le, rfl⟩
  | succ n ih =>
    intro i le h
    have h0 : attemptFails (env.dl url timeout i) = true := by
      have := h 0 (Nat.succ_pos n)
      simpa using this
    have hrange : (List.range (n + 1)).map (fun j => Step.download url timeout (i + j)) =
        Step.download url timeout i ::
          (List.range n).map (fun j => Step.download url timeout (i + 1 + j)) := by
      rw [List.range_succ_eq_map, List.map_cons, List.map_map]
      refine congrArg₂ _ (by rw [Nat.add_zero]) (List.map_congr_left ?_)
      intro j _
      simp only [Function.comp]
      rw [show i + Nat.succ j = i + 1 + j by omega]
    have hshift : ∀ le2, ∃ e, download_go env url timeout n (i + 1) le2 =
        ((none, some e), (List.range n).map fun j => Step.download url timeout (i + 1 + j)) := by
      intro le2
      refine ih (i + 1) le2 ?_
      intro j hj
      have := h (j + 1) (by omega)
      rwa [show i + (j + 1) = i + 1 + j by omega] at this
    simp only [download_go]
    cases hdl : env.dl url timeout i with
    | exn msg =>
      obtain ⟨e, he⟩ := hshift (some msg)
      refine ⟨e, ?_⟩
      dsimp only
      rw [he, hrange]
    | resp stc bs =>
      have hst : stc ≠ 200 := by
        rw [hdl] at h0
        simpa [attemptFails] using h0
      obtain ⟨e, he⟩ := hshift (some ("HTTP " ++ toString stc ++ " downloading image"))
      refine ⟨e, ?_⟩
      dsimp only
      rw [if_pos hst, he, hrange]

/-- Lemma about `download_image` at the source's default arguments: three failing attempts
(the first try and the 2 configured retries), all with the 20 second timeout,
exhaust the loop. -/
lemma download_image_all_fail (env : Env) (url : String)
    (h : ∀ j, j < 3 → attemptFails (env.dl url 20 j) = true) :
    ∃ e, download_image env url = ((none, some e),
      [Step.download url 20 0, Step.download url 20 1, Step.download url 20 2]) := by
  obtain ⟨e, he⟩ := download_go_all_fail env url 20 3 0 none
    (by intro j hj; simpa using h j hj)
  refine ⟨e, ?_⟩
  rw [download_image, he]
  simp [show List.range 3 = [0, 1, 2] from rfl]

/-- C6 amended: with the source's fixed 20s timeout and 2 retries, a download
whose three attempts (initial try plus both retries) all fail — by network
exception or non-200 status — makes the image resolution record a
`download error: ...` reason and skip the image: no code is produced and the
performed steps are exactly the asset search and the three download attempts,
with no upload and no upsert. -/
theorem c6_download_retries_exhausted (env : Env) (t : Nat) (img : Image)
    (hstatus : (env.asset_search ASSET_FAMILY_CODE
      (sanitize_asset_code t img.seo_filename)).status = 200)
    (hitems : (env.asset_search ASSET_FAMILY_CODE
      (sanitize_asset_code t img.seo_filename)).items = [])
    (hfail : ∀ j, j < 3 → attemptFails (env.dl img.url 20 j) = true) :
    ∃ e, resolve_image env t img =
      (none, some ("download error: " ++ e),
       [Step.assetSearch ASSET_FAMILY_CODE (sanitize_asset_code t img.seo_filename),
        Step.download img.url 20 0, Step.download img.url 20 1, Step.download img.url 20 2]) := by
  obtain ⟨e, he⟩ := download_image_all_fail env img.url hfail
  refine ⟨e, ?_⟩
  simp only [resolve_image, find_asset_by_code, hstatus, hitems, he]
  simp

/-- Witness for the amended C6: an environment whose downloads always raise. -/
theorem c6_witness :
    ∃ e, resolve_image { envBase with dl := fun _ _ _ => .exn "boom" } 0
        ⟨"u", "f.jpg", some 1⟩ =
      (none, some ("download error: " ++ e),
       [Step.assetSearch ASSET_FAMILY_CODE (sanitize_asset_code 0 "f.jpg"),
        Step.download "u" 20 0, Step.download "u" 20 1, Step.download "u" 20 2]) :=
  c6_download_retries_exhausted { envBase with dl := fun _ _ _ => .exn "boom" } 0
    ⟨"u", "f.jpg", some 1⟩ (by decide) (by decide) (by decide)

/-- C6 counterexample: a download that fails twice in a row but succeeds on
the third attempt (the second configured retry) is **not** recorded as a
download error: the image is resolved, upload and upsert are both called and
an asset is created, contradicting the claim that two consecutive failures
already yield a download error and skip the image. -/
theorem c6_counterexample :
    attemptFails ((fun (_ : String) (_ : Nat) (i : Nat) =>
        if i < 2 then DlAttempt.exn "boom" else DlAttempt.resp 200 [7]) "u" 20 0) = true ∧
    attemptFails ((fun (_ : String) (_ : Nat) (i : Nat) =>
        if i < 2 then DlAttempt.exn "boom" else DlAttempt.resp 200 [7]) "u" 20 1) = true ∧
    resolve_image { envBase with dl := fun _ _ i =>
        if i < 2 then DlAttempt.exn "boom" else DlAttempt.resp 200 [7] } 0
      ⟨"u", "img.jpg", some 1⟩ =
      (some "img", none,
       [Step.assetSearch ASSET_FAMILY_CODE "img",
        Step.download "u" 20 0, Step.download "u" 20 1, Step.download "u" 20 2,
        Step.upload "img.jpg", Step.upsertAsset ASSET_FAMILY_CODE "img"]) := by
  refine ⟨rfl, rfl, ?_⟩
  decide

/-- The bad-status error and the missing-header error are distinct strings. -/
lemma media_err_ne_missing (s txt : String) :
    "Media upload failed (" ++ s ++ "): " ++ txt ≠
      "Missing asset-media-file-code in response headers" := by
  intro h
  have hd := congrArg String.data h
  rw [String.data_append, String.data_append, String.data_append] at hd
  have h2 := congrArg (fun l : List Char => l[1]?) hd
  simp only at h2
  rw [List.append_assoc, List.append_assoc] at h2
  rw [List.getElem?_append_left (by decide)] at h2
  exact absurd h2 (by decide)

/-- C7: the media upload succeeds (no error) iff the response status is 201 or
202 **and** a non-empty `asset-media-file-code` header is present; a bad
status yields the `Media upload failed ...` error, a missing (or empty)
header with a good status yields the `Missing asset-media-file-code ...`
error; the two error strings are always distinct; and an image whose upload
fails is skipped: it contributes no code and its steps contain no upsert. -/
theorem c7_upload_success_iff (env : Env) (bs : List Nat) (fn : String) (t : Nat) (img : Image) :
    ((upload_asset_media env bs fn).1.2 = none ↔
      ((env.upload fn bs).status = 201 ∨ (env.upload fn bs).status = 202) ∧
        ∃ mc, (env.upload fn bs).mediaCode = some mc ∧ mc ≠ "") ∧
    (¬ ((env.upload fn bs).status = 201 ∨ (env.upload fn bs).status = 202) →
      upload_asset_media env bs fn =
        ((none, some ("Media upload failed (" ++ toString (env.upload fn bs).status ++ "): " ++
          (env.upload fn bs).text)), [Step.upload fn])) ∧
    (((env.upload fn bs).status = 201 ∨ (env.upload fn bs).status = 202) →
      ((env.upload fn bs).mediaCode = none ∨ (env.upload fn bs).mediaCode = some "") →
      upload_asset_media env bs fn =
        ((none, some "Missing asset-media-file-code in response headers"), [Step.upload fn])) ∧
    (∀ s txt : String, "Media upload failed (" ++ s ++ "): " ++ txt ≠
      "Missing asset-media-file-code in response headers") ∧
    (∀ e bs0,
      (env.asset_search ASSET_FAMILY_CODE (sanitize_asset_code t img.seo_filename)).status = 200 →
      (env.asset_search ASSET_FAMILY_CODE (sanitize_asset_code t img.seo_filename)).items = [] →
      env.dl img.url 20 0 = DlAttempt.resp 200 bs0 →
      (upload_asset_media env bs0 img.seo_filename).1.2 = some e →
      resolve_image env t img =
        (none, some ("media upload error: " ++ e),
         [Step.assetSearch ASSET_FAMILY_CODE (sanitize_asset_code t img.seo_filename),
          Step.download img.url 20 0, Step.upload img.seo_filename])) := by
  refine ⟨?_, ?_, ?_, media_err_ne_missing, ?_⟩
  · simp only [upload_asset_media]
    by_cases hs : (env.upload fn bs).status = 201 ∨ (env.upload fn bs).status = 202
    · rw [if_neg (not_not_intro hs)]
      cases hmc : (env.upload fn bs).mediaCode with
      | none => simp [hs, hmc]
      | some mc =>
        by_cases hmc0 : mc = ""
        · simp [hs, hmc, hmc0]
        · simp [hs, hmc, hmc0]
    · rw [if_pos hs]
      simp [hs]
  · intro hs
    simp only [upload_asset_media]
    rw [if_pos hs]
  · intro hs hmc
    simp only [upload_asset_media]
    rw [if_neg (not_not_intro hs)]
    rcases hmc with hmc | hmc <;> rw [hmc]
    rfl
  · intro e bs0 hstatus hitems hdl0 hup
    have hdli : download_image env img.url =
        ((some bs0, none), [Step.download img.url 20 0]) := by
      simp only [download_image, download_go, hdl0]
      simp
    simp only [resolve_image, find_asset_by_code, hstatus, hitems, hdli]
    simp [hup, upload_asset_media_snd]

/-- Witness for C7: a concrete upload response with status 500 produces the
bad-status error. -/
theorem c7_witness :
    upload_asset_media { envBase with upload := fun _ _ => ⟨500, "err", none⟩ } [1] "f.jpg" =
      ((none, some ("Media upload failed (" ++
        toString (({ envBase with upload := fun _ _ => ⟨500, "err", none⟩ } : Env).upload
          "f.jpg" [1]).status ++ "): " ++
        (({ envBase with upload := fun _ _ => ⟨500, "err", none⟩ } : Env).upload
          "f.jpg" [1]).text)), [Step.upload "f.jpg"]) :=
  (c7_upload_success_iff { envBase with upload := fun _ _ => ⟨500, "err", none⟩ }
    [1] "f.jpg" 0 ⟨"u", "f.jpg", some 1⟩).2.1 (by decide)

lemma resolve_images_codes_ne_empty (env : Env) (t : Nat) (sku : String)
    (imgs : List Image) (c : String) (h : c ∈ (resolve_images env t sku imgs).1) :
    c ≠ "" := by
  rw [resolve_images_fst] at h
  obtain ⟨img, _, himg⟩ := List.mem_filterMap.mp h
  rw [resolve_image_fst_eq_sanitize env t img c himg]
  exact sanitize_asset_code_ne_empty t img.seo_filename

/-- C1 amended: whenever the product is found uniquely and at least one asset
code was resolved, the product PATCH is issued exactly once, with: main set to
the **first successfully resolved** code and the remaining resolved codes as
"other" when the first sorted valid image has `position == 1`, and main unset
with all resolved codes as "other" otherwise.  The first resolved code equals
the position-1 image's own code whenever that image's resolution succeeded
(second conjunct) — but not necessarily otherwise, which is where the claim
as stated fails. -/
theorem c1_main_partition (env : Env) (t : Nat) (entry : ProductEntry)
    (stats : Stats) (item : String)
    (hsku : entry.sku ≠ "")
    (hps : (env.product_search entry.sku).status = 200)
    (hpi : (env.product_search entry.sku).items = [item])
    (hvne : sortImages (entry.images.filter fun i => ¬ invalidImage i) ≠ [])
    (hcne : (resolve_images env t entry.sku
      (sortImages (entry.images.filter fun i => ¬ invalidImage i))).1 ≠ []) :
    (∃ pre, (process_product env t entry stats).2 = pre ++
      [Step.updateProduct entry.sku
        (if (sortImages (entry.images.filter fun i => ¬ invalidImage i)).head?.bind
              Image.position = some 1 then
          (resolve_images env t entry.sku
            (sortImages (entry.images.filter fun i => ¬ invalidImage i))).1.head?
        else none)
        (if (sortImages (entry.images.filter fun i => ¬ invalidImage i)).head?.bind
              Image.position = some 1 then
          (resolve_images env t entry.sku
            (sortImages (entry.images.filter fun i => ¬ invalidImage i))).1.tail
        else (resolve_images env t entry.sku
          (sortImages (entry.images.filter fun i => ¬ invalidImage i))).1)]) ∧
    (∀ v rest c, sortImages (entry.images.filter fun i => ¬ invalidImage i) = v :: rest →
      (resolve_image env t v).1 = some c →
      (resolve_images env t entry.sku
        (sortImages (entry.images.filter fun i => ¬ invalidImage i))).1.head? = some c) := by
  constructor
  · obtain ⟨c, cs, hc⟩ := List.exists_cons_of_ne_nil hcne
    have hcne' : c ≠ "" := by
      refine resolve_images_codes_ne_empty env t entry.sku
        (sortImages (entry.images.filter fun i => ¬ invalidImage i)) c ?_
      rw [hc]
      exact List.mem_cons_self c cs
    have htru : truthyOpt (if (sortImages (entry.images.filter fun i => ¬ invalidImage i)).head?.bind
            Image.position = some 1 then
          (resolve_images env t entry.sku
            (sortImages (entry.images.filter fun i => ¬ invalidImage i))).1.head?
         else none) = (if (sortImages (entry.images.filter fun i => ¬ invalidImage i)).head?.bind
            Image.position = some 1 then
          (resolve_images env t entry.sku
            (sortImages (entry.images.filter fun i => ¬ invalidImage i))).1.head?
         else none) := by
      by_cases hpos : (sortImages (entry.images.filter fun i => ¬ invalidImage i)).head?.bind
          Image.position = some 1
      · rw [if_pos hpos, hc]
        show truthyOpt (some c) = some c
        simp [truthyOpt, hcne']
      · rw [if_neg hpos]
        rfl
    refine ⟨[Step.productSearch entry.sku] ++ (resolve_images env t entry.sku
      (sortImages (entry.images.filter fun i => ¬ invalidImage i))).2.2, ?_⟩
    simp only [process_product, find_product_by_sku, hps, hpi, if_neg hsku]
    simp only [ne_eq, not_true_eq_false, if_false, List.length_cons, List.length_nil]
    rw [if_neg (show ¬ ((0 : Nat) + 1 = 0) by omega), if_neg (show ¬ ((0 : Nat) + 1 > 1) by omega)]
    simp only [if_neg hvne, if_neg hcne]
    simp only [apply_ite Prod.fst, apply_ite Prod.snd]
    rcases hur : update_product_assets env entry.sku (if (sortImages (entry.images.filter fun i => ¬ invalidImage i)).head?.bind
            Image.position = some 1 then
          (resolve_images env t entry.sku
            (sortImages (entry.images.filter fun i => ¬ invalidImage i))).1.head?
         else none)
        (if (sortImages (entry.images.filter fun i => ¬ invalidImage i)).head?.bind
            Image.position = some 1 then
          (resolve_images env t entry.sku
            (sortImages (entry.images.filter fun i => ¬ invalidImage i))).1.tail
         else (resolve_images env t entry.sku
           (sortImages (entry.images.filter fun i => ¬ invalidImage i))).1) with ⟨mc, steps⟩
    have hsnd := update_product_assets_snd env entry.sku (if (sortImages (entry.images.filter fun i => ¬ invalidImage i)).head?.bind
            Image.position = some 1 then
          (resolve_images env t entry.sku
            (sortImages (entry.images.filter fun i => ¬ invalidImage i))).1.head?
         else none)
        (if (sortImages (entry.images.filter fun i => ¬ invalidImage i)).head?.bind
            Image.position = some 1 then
          (resolve_images env t entry.sku
            (sortImages (entry.images.filter fun i => ¬ invalidImage i))).1.tail
         else (resolve_images env t entry.sku
           (sortImages (entry.images.filter fun i => ¬ invalidImage i))).1)
    rw [hur] at hsnd
    dsimp only at hsnd
    subst hsnd
    rw [htru]
    cases mc <;> rfl
  · intro v rest c hv hc
    rw [resolve_images_fst, hv, List.filterMap_cons, hc]
    rfl

/-- C1 counterexample: the first sorted valid image has `position == 1` and
derives code `a`, but its resolution fails (download errors); the claim says
only that image's code may occupy "main", yet the issued PATCH carries
`main = "b"` — the code of the position-2 image — and an empty "other" list. -/
theorem c1_counterexample :
    (process_product envC1 0 entryC1 stats0).2 =
      [Step.productSearch "S", Step.assetSearch ASSET_FAMILY_CODE "a",
       Step.download "u1" 20 0, Step.download "u1" 20 1, Step.download "u1" 20 2,
       Step.assetSearch ASSET_FAMILY_CODE "b",
       Step.updateProduct "S" (some "b") []] ∧
    sanitize_asset_code 0 "a.jpg" = "a" ∧
    sanitize_asset_code 0 "b.jpg" = "b" ∧
    entryC1.images.head?.bind Image.position = some 1 ∧
    ("b" : String) ≠ "a" := by
  refine ⟨by decide, rfl, rfl, rfl, by decide⟩

/-- Witness for the amended C1 at a concrete successful run. -/
theorem c1_witness :
    (∃ pre, (process_product envBase 0 ⟨"S", "N", [⟨"u", "f.jpg", some 1⟩]⟩ stats0).2 = pre ++
      [Step.updateProduct "S"
        (if (sortImages (([⟨"u", "f.jpg", some 1⟩] : List Image).filter
              fun i => ¬ invalidImage i)).head?.bind Image.position = some 1 then
          (resolve_images envBase 0 "S"
            (sortImages (([⟨"u", "f.jpg", some 1⟩] : List Image).filter
              fun i => ¬ invalidImage i))).1.head?
        else none)
        (if (sortImages (([⟨"u", "f.jpg", some 1⟩] : List Image).filter
              fun i => ¬ invalidImage i)).head?.bind Image.position = some 1 then
          (resolve_images envBase 0 "S"
            (sortImages (([⟨"u", "f.jpg", some 1⟩] : List Image).filter
              fun i => ¬ invalidImage i))).1.tail
        else (resolve_images envBase 0 "S"
          (sortImages (([⟨"u", "f.jpg", some 1⟩] : List Image).filter
            fun i => ¬ invalidImage i))).1)]) ∧
    (∀ v rest c, sortImages (([⟨"u", "f.jpg", some 1⟩] : List Image).filter
        fun i => ¬ invalidImage i) = v :: rest →
      (resolve_image envBase 0 v).1 = some c →
      (resolve_images envBase 0 "S"
        (sortImages (([⟨"u", "f.jpg", some 1⟩] : List Image).filter
          fun i => ¬ invalidImage i))).1.head? = some c) :=
  c1_main_partition envBase 0 ⟨"S", "N", [⟨"u", "f.jpg", some 1⟩]⟩ stats0 "p"
    (by decide) (by decide) (by decide) (by decide) (by decide)

/-- C2 amended: when the product was found uniquely, at least one **valid**
image existed but no asset code at all could be resolved, the product PATCH
is never issued, the SKU is recorded in the generic-errors bucket with
reason `no assets to link`, and the SKU is not added to the updated bucket.
(When there is no valid image at all, the PATCH is also skipped but the SKU
goes to the *updated* bucket instead — see the counterexample.) -/
theorem c2_no_codes_skips_update (env : Env) (t : Nat) (entry : ProductEntry)
    (stats : Stats) (item : String)
    (hsku : entry.sku ≠ "")
    (hps : (env.product_search entry.sku).status = 200)
    (hpi : (env.product_search entry.sku).items = [item])
    (hvalid : sortImages (entry.images.filter fun i => ¬ invalidImage i) ≠ [])
    (hcodes : (resolve_images env t entry.sku
      (sortImages (entry.images.filter fun i => ¬ invalidImage i))).1 = []) :
    (process_product env t entry stats).1.updated = stats.updated ∧
    (some entry.sku, "no assets to link") ∈ (process_product env t entry stats).1.other ∧
    ∀ s m o, Step.updateProduct s m o ∉ (process_product env t entry stats).2 := by
  have hred : process_product env t entry stats =
      ({ stats with other := stats.other ++
          ((entry.images.filter invalidImage).map
            fun _ => ((some entry.sku : Option String), "Invalid image entry")) ++
          (resolve_images env t entry.sku
            (sortImages (entry.images.filter fun i => ¬ invalidImage i))).2.1 ++
          [(some entry.sku, "no assets to link")] },
       [Step.productSearch entry.sku] ++
         (resolve_images env t entry.sku
           (sortImages (entry.images.filter fun i => ¬ invalidImage i))).2.2) := by
    simp only [process_product, find_product_by_sku, hps, hpi, if_neg hsku]
    simp only [ne_eq, not_true_eq_false, if_false, List.length_cons, List.length_nil]
    simp only [if_neg hvalid, hcodes]
    simp
  refine ⟨by rw [hred], by rw [hred]; simp, ?_⟩
  intro s m o h
  rw [hred] at h
  simp only [List.mem_append, List.mem_singleton] at h
  rcases h with h | h
  · cases h
  · exact resolve_images_no_update env t entry.sku s m o _ h

/-- Witness for the amended C2: the asset search fails with status 500 for the
only (valid) image, so no code is resolved. -/
theorem c2_witness :
    (process_product { envBase with asset_search := fun _ _ => ⟨500, "boom", []⟩ } 0
        ⟨"S", "N", [⟨"u", "f.jpg", some 1⟩]⟩ stats0).1.updated = stats0.updated ∧
    (some "S", "no assets to link") ∈
      (process_product { envBase with asset_search := fun _ _ => ⟨500, "boom", []⟩ } 0
        ⟨"S", "N", [⟨"u", "f.jpg", some 1⟩]⟩ stats0).1.other ∧
    ∀ s m o, Step.updateProduct s m o ∉
      (process_product { envBase with asset_search := fun _ _ => ⟨500, "boom", []⟩ } 0
        ⟨"S", "N", [⟨"u", "f.jpg", some 1⟩]⟩ stats0).2 :=
  c2_no_codes_skips_update { envBase with asset_search := fun _ _ => ⟨500, "boom", []⟩ } 0
    ⟨"S", "N", [⟨"u", "f.jpg", some 1⟩]⟩ stats0 "p"
    (by decide) (by decide) (by decide) (by decide) (by decide)

/-- C2 counterexample: a product whose only image is invalid (empty url)
resolves no asset code at all, yet its SKU is recorded in the **updated**
bucket — `stats["updated"].append(sku)` on the `no valid images` path — and
not as a terminal generic error, contradicting the claim.  (The PATCH is
indeed skipped: the trace holds only the product search.) -/
theorem c2_counterexample :
    process_product envBase 0 ⟨"S2", "N", [⟨"", "f.jpg", some 1⟩]⟩ stats0 =
      (⟨0, ["S2"], [], [], [(some "S2", "Invalid image entry")]⟩,
       [Step.productSearch "S2"]) := by
  decide

/-- C8 amended: the **terminal** outcome of processing one product goes to
exactly one bucket: either the SKU is appended to `updated`, or to
`not_found` (all other buckets untouched), or to `ambiguous` (all other
buckets untouched), or at least one `(sku, reason)` record is appended to
`other` with the three SKU buckets untouched.  The four cases are mutually
exclusive by their stated equalities.  (Unlike the claim, a product that ends
in `updated` may *additionally* contribute per-image diagnostic records to
`other` — see the counterexample.) -/
theorem c8_terminal_routing_unique (env : Env) (t : Nat) (entry : ProductEntry) (stats : Stats) :
    ((process_product env t entry stats).1.updated = stats.updated ++ [entry.sku] ∧
     (process_product env t entry stats).1.not_found = stats.not_found ∧
     (process_product env t entry stats).1.ambiguous = stats.ambiguous) ∨
    ((process_product env t entry stats).1.not_found = stats.not_found ++ [entry.sku] ∧
     (process_product env t entry stats).1.updated = stats.updated ∧
     (process_product env t entry stats).1.ambiguous = stats.ambiguous ∧
     (process_product env t entry stats).1.other = stats.other) ∨
    ((process_product env t entry stats).1.ambiguous = stats.ambiguous ++ [entry.sku] ∧
     (process_product env t entry stats).1.updated = stats.updated ∧
     (process_product env t entry stats).1.not_found = stats.not_found ∧
     (process_product env t entry stats).1.other = stats.other) ∨
    ((process_product env t entry stats).1.updated = stats.updated ∧
     (process_product env t entry stats).1.not_found = stats.not_found ∧
     (process_product env t entry stats).1.ambiguous = stats.ambiguous ∧
     (process_product env t entry stats).1.other ≠ stats.other) := by
  simp only [process_product]
  repeat' split
  all_goals first
    | (left; exact ⟨rfl, rfl, rfl⟩)
    | (right; left; exact ⟨rfl, rfl, rfl, rfl⟩)
    | (right; right; left; exact ⟨rfl, rfl, rfl, rfl⟩)
    | (right; right; right
       refine ⟨rfl, rfl, rfl, ?_⟩
       intro h
       have h2 := congrArg List.length h
       simp only [List.length_append, List.length_cons, List.length_nil] at h2
       omega)

/-- C8 counterexample: a product with one invalid image and one valid,
already-existing image ends in the `updated` bucket **and** contributes an
`Invalid image entry` record to the `other` bucket for the same SKU, so the
outcome is not routed into exactly one bucket as claimed. -/
theorem c8_counterexample :
    "S8" ∈ (process_product { envBase with asset_search := fun _ _ => ⟨200, "", ["x"]⟩ } 0
      ⟨"S8", "N", [⟨"", "f.jpg", some 1⟩, ⟨"u", "g.jpg", some 2⟩]⟩ stats0).1.updated ∧
    (some "S8", "Invalid image entry") ∈
      (process_product { envBase with asset_search := fun _ _ => ⟨200, "", ["x"]⟩ } 0
        ⟨"S8", "N", [⟨"", "f.jpg", some 1⟩, ⟨"u", "g.jpg", some 2⟩]⟩ stats0).1.other := by
  decide

/-- C9 amended: when the product is found uniquely, every image whose `url`
or `seo_filename` is empty is dropped and one `(sku, "Invalid image entry")`
record per such image is appended to `other`, right after the pre-existing
records; an image with non-empty `url` and `seo_filename` is **kept for
processing regardless of its `position`** — the position field is not part of
the validity check in `process_product`.  (Rows with an empty position are
dropped silently by the loader, with no record — see the counterexample.) -/
theorem c9_invalid_images_recorded (env : Env) (t : Nat) (entry : ProductEntry)
    (stats : Stats) (item : String)
    (hsku : entry.sku ≠ "")
    (hps : (env.product_search entry.sku).status = 200)
    (hpi : (env.product_search entry.sku).items = [item]) :
    (∃ tail, (process_product env t entry stats).1.other =
        stats.other ++ ((entry.images.filter invalidImage).map
          fun _ => ((some entry.sku : Option String), "Invalid image entry")) ++ tail) ∧
    (∀ img, img ∈ entry.images → img.url ≠ "" → img.seo_filename ≠ "" →
        img ∈ sortImages (entry.images.filter fun i => ¬ invalidImage i)) := by
  constructor
  · simp only [process_product, find_product_by_sku, hps, hpi, if_neg hsku]
    simp only [ne_eq, not_true_eq_false, if_false, List.length_cons, List.length_nil]
    rw [if_neg (show ¬ ((0 : Nat) + 1 = 0) by omega),
      if_neg (show ¬ ((0 : Nat) + 1 > 1) by omega)]
    by_cases hv : sortImages (entry.images.filter fun i => ¬ invalidImage i) = []
    · rw [if_pos hv]
      exact ⟨[], by simp⟩
    · rw [if_neg hv]
      by_cases hcz : (resolve_images env t entry.sku
          (sortImages (entry.images.filter fun i => ¬ invalidImage i))).1 = []
      · rw [if_pos hcz]
        refine ⟨(resolve_images env t entry.sku
            (sortImages (entry.images.filter fun i => ¬ invalidImage i))).2.1 ++
            [(some entry.sku, "no assets to link")], ?_⟩
        simp [List.append_assoc]
      · rw [if_neg hcz]
        split
        · next e heq =>
          refine ⟨(resolve_images env t entry.sku
              (sortImages (entry.images.filter fun i => ¬ invalidImage i))).2.1 ++
              [(some entry.sku, "product update error: " ++ e)], ?_⟩
          simp [List.append_assoc]
        · refine ⟨(resolve_images env t entry.sku
              (sortImages (entry.images.filter fun i => ¬ invalidImage i))).2.1, ?_⟩
          simp [List.append_assoc]
  · intro img hmem hurl hseo
    rw [mem_sortImages, List.mem_filter]
    refine ⟨hmem, ?_⟩
    simp [invalidImage, hurl, hseo]

/-- C9 counterexample: (a) a CSV row with empty `image_position` (non-empty
url and filename) is dropped by the loader with **no** recorded reason — the
loaded product simply has no images and nothing else is returned; (b) an
image descriptor with a missing position that reaches `process_product` is
**not** dropped: it is resolved via the asset search and linked, and no
`Invalid image entry` (nor any other) record is made for it.  Both refute
the claim that every image with an empty position field is dropped with a
recorded reason. -/
theorem c9_counterexample :
    load_input_csv [⟨"S", "T", "u", "f.jpg", ""⟩] = some [⟨"S", "T", []⟩] ∧
    process_product { envBase with asset_search := fun _ _ => ⟨200, "", ["x"]⟩ } 0
      ⟨"S", "T", [⟨"u", "f.jpg", none⟩]⟩ stats0 =
      (⟨0, ["S"], [], [], []⟩,
       [Step.productSearch "S", Step.assetSearch ASSET_FAMILY_CODE "f",
        Step.updateProduct "S" none ["f"]]) := by
  refine ⟨rfl, by decide⟩

/-- Witness for the amended C9: one invalid and one valid image. -/
theorem c9_witness :
    (∃ tail, (process_product envBase 0
        ⟨"S", "N", [⟨"", "f.jpg", some 1⟩, ⟨"u", "g.jpg", some 2⟩]⟩ stats0).1.other =
      stats0.other ++ ((([⟨"", "f.jpg", some 1⟩, ⟨"u", "g.jpg", some 2⟩] :
          List Image).filter invalidImage).map
        fun _ => ((some "S" : Option String), "Invalid image entry")) ++ tail) ∧
    (∀ img, img ∈ ([⟨"", "f.jpg", some 1⟩, ⟨"u", "g.jpg", some 2⟩] : List Image) →
      img.url ≠ "" → img.seo_filename ≠ "" →
      img ∈ sortImages (([⟨"", "f.jpg", some 1⟩, ⟨"u", "g.jpg", some 2⟩] :
        List Image).filter fun i => ¬ invalidImage i)) :=
  c9_invalid_images_recorded envBase 0
    ⟨"S", "N", [⟨"", "f.jpg", some 1⟩, ⟨"u", "g.jpg", some 2⟩]⟩ stats0 "p"
    (by decide) (by decide) (by decide)

end AkeneoExport

